import Mathlib

/-
Verification of sharedlibrary (SharedLibrary.hpp): a shallow embedding of the
SharedLibraryBase contract together with the POSIX backend SharedLibraryPosix,
and theorems about the load / unload / symbol-resolution semantics.

Machine pointers are modelled as Nat with 0 standing for nullptr; a thrown
std::runtime_error is modelled as Except.error carrying the message string; the
platform dynamic linker (dlopen / dlsym / dlerror) is modelled as an
environment of oracle functions, and every operation additionally reports how
many dlopen, dlsym and dlclose calls it performed.
-/

namespace SharedLibrary

/-- POSIX dlopen flag RTLD_LAZY (value on Linux): resolve symbols lazily. -/
def RTLD_LAZY : Nat := 1

/-- POSIX dlopen flag RTLD_NOW (value on Linux): resolve all symbols immediately. -/
def RTLD_NOW : Nat := 2

/-- POSIX dlopen flag RTLD_LOCAL (value on Linux): symbols of the loaded image
are not made available to subsequently loaded libraries. -/
def RTLD_LOCAL : Nat := 0

/-- POSIX dlopen flag RTLD_GLOBAL (value on Linux): symbols are exported to the
global table. -/
def RTLD_GLOBAL : Nat := 256

/-- The mode argument that SharedLibraryPosix.nativeLoad passes to dlopen
(SharedLibrary.hpp line 245): RTLD_LAZY OR RTLD_LOCAL. -/
def dlopenMode : Nat := RTLD_LAZY ||| RTLD_LOCAL

/-- The platform dynamic linker, as seen by the POSIX backend: dlopen takes the
path and the mode and returns the native handle (none models a failed load),
dlsym takes a handle and a symbol name and returns the bound address (none
models a lookup after which dlerror reports an error), and dlerrMsg is the text
dlerror produces for a failed dlopen. -/
structure Env where
  dlopen : String → Nat → Option Nat
  dlsym : Nat → String → Option Nat
  dlerrMsg : String

/-- The data members of SharedLibraryBase (SharedLibrary.hpp lines 146-151):
libPath_ (the raw path), delayLoad_ (the stored flag), the std::once_flag flag_
(onceDone is true exactly when the flag has been set), and handle_ (0 models a
null platform handle). -/
structure LibState where
  libPath : String
  delayLoad : Bool
  onceDone : Bool
  handle : Nat
deriving DecidableEq, Repr

/-- Counters of the platform calls an operation performed. -/
structure Eff where
  dlopenCalls : Nat
  dlsymCalls : Nat
  dlcloseCalls : Nat
deriving DecidableEq, Repr

/-- No platform call. -/
def Eff.zero : Eff := ⟨0, 0, 0⟩

/-- Accumulate platform-call counters of two successive operations. -/
def Eff.add (a b : Eff) : Eff :=
  ⟨a.dlopenCalls + b.dlopenCalls, a.dlsymCalls + b.dlsymCalls,
   a.dlcloseCalls + b.dlcloseCalls⟩

/-- Result of a SharedLibraryBase operation: the state the object is left in,
the platform calls performed, and either the returned value or the message of
the thrown std::runtime_error. -/
structure Outcome (α : Type) where
  state : LibState
  eff : Eff
  res : Except String α
deriving Repr

/-- isLoaded (line 104): the handle is non-null. -/
def isLoaded (s : LibState) : Bool := s.handle != 0

/-- throwLastError (lines 138-144): the message of the std::runtime_error it
throws, api plus " failed", plus the separator and the extra text if present
(the separator characters are the ones in the source file). -/
def throwLastErrorMsg (api : String) (extra : Option String) : String :=
  match extra with
  | none => api ++ " failed"
  | some e => api ++ " failed" ++ " â€“ " ++ e

/-- SharedLibraryPosix.nativeLoad (lines 240-250): dlopen with mode
RTLD_LAZY OR RTLD_LOCAL; a null result throws "dlopen failed: " plus the
dlerror text, otherwise the handle member is set to the result. -/
def nativeLoad (env : Env) (s : LibState) : Outcome Unit :=
  match env.dlopen s.libPath dlopenMode with
  | none => ⟨s, ⟨1, 0, 0⟩, .error ("dlopen failed: " ++ env.dlerrMsg)⟩
  | some h => ⟨{ s with handle := h }, ⟨1, 0, 0⟩, .ok ()⟩

/-- loadNow (lines 75-84): no-op when already loaded; otherwise nativeLoad, and
if the handle is still null afterwards, throwLastError("loadNow() failed"). -/
def loadNow (env : Env) (s : LibState) : Outcome Unit :=
  if isLoaded s then ⟨s, Eff.zero, .ok ()⟩
  else
    match nativeLoad env s with
    | ⟨s1, e1, .error e⟩ => ⟨s1, e1, .error e⟩
    | ⟨s1, e1, .ok _⟩ =>
      if isLoaded s1 then ⟨s1, e1, .ok ()⟩
      else ⟨s1, e1, .error (throwLastErrorMsg "loadNow() failed" none)⟩

/-- ensureLoaded (lines 87-90): std::call_once(flag_, loadNow). The flag is set
only when the callee returns without throwing; an exceptional call propagates
the exception and leaves the flag unset, so a later call runs loadNow again. -/
def ensureLoaded (env : Env) (s : LibState) : Outcome Unit :=
  if s.onceDone then ⟨s, Eff.zero, .ok ()⟩
  else
    match loadNow env s with
    | ⟨s1, e1, .ok _⟩ => ⟨{ s1 with onceDone := true }, e1, .ok ()⟩
    | ⟨s1, e1, .error e⟩ => ⟨s1, e1, .error e⟩

/-- SharedLibraryPosix.nativeUnload (lines 253-258): dlclose when the handle is
non-null, then null the handle. -/
def nativeUnload (s : LibState) : LibState × Eff :=
  if s.handle ≠ 0 then ({ s with handle := 0 }, ⟨0, 0, 1⟩) else (s, Eff.zero)

/-- unload (lines 96-101): when loaded, nativeUnload and null the handle;
otherwise a no-op. -/
def unload (s : LibState) : LibState × Eff :=
  if isLoaded s then
    let p := nativeUnload s
    ({ p.1 with handle := 0 }, p.2)
  else (s, Eff.zero)

/-- SharedLibraryPosix.rawGetSymbol (lines 261-272): a null handle returns
nullptr without any dlsym call; otherwise dlerror is cleared, dlsym is called,
and a pending dlerror afterwards turns the result into nullptr. The first
component 0 models a nullptr result. -/
def rawGetSymbol (env : Env) (s : LibState) (name : String) : Nat × Eff :=
  if s.handle = 0 then (0, Eff.zero)
  else
    match env.dlsym s.handle name with
    | none => (0, ⟨0, 1, 0⟩)
    | some p => (p, ⟨0, 1, 0⟩)

/-- The address rawGetSymbol would deliver (its pointer component). -/
def resolveAddr (env : Env) (s : LibState) (name : String) : Nat :=
  (rawGetSymbol env s name).1

/-- get with an explicit function type (lines 110-117): ensureLoaded, then
rawGetSymbol; a null address throws
throwLastError("GetProcAddress", name). -/
def get (env : Env) (s : LibState) (name : String) : Outcome Nat :=
  match ensureLoaded env s with
  | ⟨s1, e1, .error e⟩ => ⟨s1, e1, .error e⟩
  | ⟨s1, e1, .ok _⟩ =>
    let pe := rawGetSymbol env s1 name
    if pe.1 = 0 then
      ⟨s1, e1.add pe.2, .error (throwLastErrorMsg "GetProcAddress" (some name))⟩
    else
      ⟨s1, e1.add pe.2, .ok pe.1⟩

/-- The FuncBinding descriptor (lines 46-49): the exported name and the
destination function-pointer variable, the latter modelled as an index into a
store of caller-side slots. -/
structure FuncBinding where
  name : String
  ptr : Nat
deriving DecidableEq, Repr

/-- The bind helper (lines 292-295). -/
def bind (name : String) (ptr : Nat) : FuncBinding := ⟨name, ptr⟩

/-- The store of caller-side function-pointer slots a batch call writes into. -/
abbrev Slots := Nat → Nat

/-- Writing one slot of the store. -/
def Slots.write (σ : Slots) (i v : Nat) : Slots := fun j => if j = i then v else σ j

/-- Result of a batch call: object state, slot store, platform calls, and the
message of the thrown error if any descriptor failed. -/
structure BatchOutcome where
  state : LibState
  slots : Slots
  eff : Eff
  err : Option String

/-- batchLoad_one (lines 156-159): one get call, its result written through the
descriptor pointer; a thrown error leaves the slot unwritten. -/
def batchLoad_one (env : Env) (s : LibState) (σ : Slots) (b : FuncBinding) :
    BatchOutcome :=
  match get env s b.name with
  | ⟨s1, e1, .ok p⟩ => ⟨s1, Slots.write σ b.ptr p, e1, none⟩
  | ⟨s1, e1, .error e⟩ => ⟨s1, σ, e1, some e⟩

/-- batchLoad (lines 127-129): the fold expression evaluates batchLoad_one on
each descriptor from left to right; a thrown error aborts the remaining
descriptors. -/
def batchLoad (env : Env) (s : LibState) (σ : Slots) :
    List FuncBinding → BatchOutcome
  | [] => ⟨s, σ, Eff.zero, none⟩
  | b :: bs =>
    match batchLoad_one env s σ b with
    | ⟨s1, σ1, e1, some msg⟩ => ⟨s1, σ1, e1, some msg⟩
    | ⟨s1, σ1, e1, none⟩ =>
      let r := batchLoad env s1 σ1 bs
      ⟨r.state, r.slots, e1.add r.eff, r.err⟩

/-- The member-wise move that the defaulted move operations of
SharedLibraryBase (lines 62-68) designate: the moved-from std::string may be
left empty, while the scalar members delayLoad_ and the raw pointer handle_
are merely copied, never cleared. (In the program itself these defaulted
operations are implicitly deleted, because the std::once_flag member flag_ is
neither copyable nor movable, so the type cannot be moved at all.) -/
def movedFromState (s : LibState) : LibState := { s with libPath := "" }

/-- The destination of the member-wise defaulted move: an exact copy. -/
def moveDest (s : LibState) : LibState := s

/-- Overwriting the stored delayLoad_ flag, for the flag-independence claim. -/
def setDelay (s : LibState) (b : Bool) : LibState := { s with delayLoad := b }

/-- A linker environment in which every dlopen call fails. -/
def envFail : Env := ⟨fun _ _ => none, fun _ _ => none, "cannot open shared object file"⟩

/-- A linker environment in which dlopen yields handle 7 and only the symbol
named good resolves (to address 42). -/
def envOk : Env :=
  ⟨fun _ _ => some 7, fun _ n => if n = "good" then some 42 else none, ""⟩

/-- A linker environment for the batch scenario: the symbols f and h resolve,
the symbol g does not. -/
def envBatch : Env :=
  ⟨fun _ _ => some 7,
   fun _ n => if n = "f" then some 10 else if n = "h" then some 30 else none, ""⟩

/-- A freshly constructed handle: guard unset, handle null. -/
def sFresh : LibState := ⟨"libdemo.so", false, false, 0⟩

/-- A handle after a successful one-time load: guard set, handle 7. -/
def sLoadedOnce : LibState := ⟨"libdemo.so", false, true, 7⟩

/-- A handle that was loaded once and then unloaded: guard set, handle null. -/
def sSpent : LibState := ⟨"libdemo.so", false, true, 0⟩

/-- An all-null store of caller-side slots. -/
def slots0 : Slots := fun _ => 0

/-- Descriptor binding symbol f to slot 1. -/
def bF : FuncBinding := ⟨"f", 1⟩

/-- Descriptor binding symbol g to slot 2. -/
def bG : FuncBinding := ⟨"g", 2⟩

/-- Descriptor binding symbol h to slot 3. -/
def bH : FuncBinding := ⟨"h", 3⟩

/- ------------------------------------------------------------------
   Helper lemmas
   ------------------------------------------------------------------ -/

theorem isLoaded_iff (s : LibState) : isLoaded s = true ↔ s.handle ≠ 0 := by
  simp [isLoaded]

theorem isLoaded_false_iff (s : LibState) : isLoaded s = false ↔ s.handle = 0 := by
  simp [isLoaded]

theorem Eff.zero_add (e : Eff) : Eff.zero.add e = e := by
  cases e; simp [Eff.add, Eff.zero]

theorem LibState.eta_handle (s : LibState) (h : s.handle = 0) :
    { s with handle := 0 } = s := by
  cases s; simp_all

theorem ensureLoaded_of_onceDone (env : Env) (s : LibState) (h : s.onceDone = true) :
    ensureLoaded env s = ⟨s, Eff.zero, .ok ()⟩ := by
  simp [ensureLoaded, h]

theorem unload_onceDone (s : LibState) : (unload s).1.onceDone = s.onceDone := by
  unfold unload nativeUnload
  split <;> simp_all [isLoaded]

theorem unload_handle (s : LibState) : (unload s).1.handle = 0 := by
  unfold unload nativeUnload
  split <;> simp_all [isLoaded]

theorem unload_libPath (s : LibState) : (unload s).1.libPath = s.libPath := by
  unfold unload nativeUnload
  split <;> simp_all [isLoaded]

theorem loadNow_of_isLoaded (env : Env) (s : LibState) (h : isLoaded s = true) :
    loadNow env s = ⟨s, Eff.zero, .ok ()⟩ := by
  simp [loadNow, h]

theorem loadNow_error_state (env : Env) (s : LibState) (e : String)
    (h : (loadNow env s).res = .error e) :
    (loadNow env s).state = s ∧ isLoaded s = false := by
  unfold loadNow nativeLoad at h ⊢
  cases hb : isLoaded s with
  | true => simp [hb] at h
  | false =>
    have hl0 : s.handle = 0 := (isLoaded_false_iff s).mp hb
    refine ⟨?_, rfl⟩
    cases hdl : env.dlopen s.libPath dlopenMode with
    | none => simp [hb, hdl]
    | some hv =>
      simp [hb, hdl] at h ⊢
      by_cases h2 : hv = 0
      · subst h2
        simp [isLoaded, LibState.eta_handle s hl0]
      · have hld : isLoaded { s with handle := hv } = true := by simp [isLoaded, h2]
        simp [hld] at h

theorem loadNow_ok_loaded (env : Env) (s : LibState)
    (h : (loadNow env s).res = .ok ()) :
    isLoaded (loadNow env s).state = true := by
  unfold loadNow nativeLoad at h ⊢
  cases hb : isLoaded s with
  | true => simp [hb]
  | false =>
    cases hdl : env.dlopen s.libPath dlopenMode with
    | none => simp [hb, hdl] at h
    | some hv =>
      simp [hb, hdl] at h ⊢
      cases hld : isLoaded { s with handle := hv } with
      | true => simp [hld]
      | false => simp [hld] at h

theorem ensureLoaded_ok_once (env : Env) (s : LibState)
    (h : (ensureLoaded env s).res = .ok ()) :
    (ensureLoaded env s).state.onceDone = true := by
  unfold ensureLoaded at h ⊢
  cases hb : s.onceDone with
  | true => simp [hb]
  | false =>
    cases hres : (loadNow env s).res with
    | ok u =>
      rcases hl : loadNow env s with ⟨s1, e1, r⟩
      rw [hl] at hres
      simp at hres
      subst hres
      simp [hb, hl]
    | error e =>
      rcases hl : loadNow env s with ⟨s1, e1, r⟩
      rw [hl] at hres
      simp at hres
      subst hres
      simp [hb, hl] at h

theorem ensureLoaded_error_state (env : Env) (s : LibState) (e : String)
    (h : (ensureLoaded env s).res = .error e) :
    (ensureLoaded env s).state = s ∧ s.onceDone = false ∧ s.handle = 0 := by
  unfold ensureLoaded at h ⊢
  cases hb : s.onceDone with
  | true => simp [hb] at h
  | false =>
    rcases hl : loadNow env s with ⟨s1, e1, r⟩
    cases r with
    | ok u => simp [hb, hl] at h
    | error e2 =>
      have hst := loadNow_error_state env s e2 (by rw [hl])
      rw [hl] at hst
      simp at hst
      simp [hb, hl, hst.1, (isLoaded_false_iff s).mp hst.2]

theorem loadNow_eff_fresh (env : Env) (s : LibState) (h2 : s.handle = 0) :
    (loadNow env s).eff = ⟨1, 0, 0⟩ := by
  have hb : isLoaded s = false := (isLoaded_false_iff s).mpr h2
  unfold loadNow nativeLoad
  cases hdl : env.dlopen s.libPath dlopenMode with
  | none => simp [hb, hdl]
  | some hv =>
    simp [hb, hdl]
    split <;> rfl

theorem ensureLoaded_fresh_dlopen (env : Env) (s : LibState)
    (h1 : s.onceDone = false) (h2 : s.handle = 0) :
    (ensureLoaded env s).eff.dlopenCalls = 1 := by
  have he : (loadNow env s).eff = ⟨1, 0, 0⟩ := loadNow_eff_fresh env s h2
  unfold ensureLoaded
  rcases hl : loadNow env s with ⟨s1, e1, r⟩
  rw [hl] at he
  simp at he
  cases r with
  | ok u => simp [h1, hl, he]
  | error e => simp [h1, hl, he]

theorem unload_noop (s : LibState) (h : isLoaded s = false) :
    unload s = (s, Eff.zero) := by
  simp [unload, h]

/- ------------------------------------------------------------------
   Claim theorems
   ------------------------------------------------------------------ -/

/-- Claim C1 (code evidence): the member-wise move that the defaulted move
operations of SharedLibraryBase designate copies the raw handle member, so at
the concrete loaded state with native handle 7 the moved-from object still
reports loaded and still holds the very same non-null handle as the
destination — ownership is not transferred and the source does not become
null. (In the program itself the defaulted move operations are even implicitly
deleted, because the std::once_flag member is neither copyable nor movable.) -/
theorem movedFrom_still_loaded :
    isLoaded (movedFromState sLoadedOnce) = true ∧
    (movedFromState sLoadedOnce).handle = (moveDest sLoadedOnce).handle ∧
    (moveDest sLoadedOnce).handle = 7 := by
  decide

/-- Claim C2 is false as stated: with a failing linker, the first ensureLoaded
performs a dlopen call and propagates the error, yet a second ensureLoaded on
the resulting state performs a dlopen call again — std::call_once does not
mark the flag when the callee throws, so a failed attempt is retried. -/
theorem ensureLoaded_retry_cex :
    (ensureLoaded envFail sFresh).eff.dlopenCalls = 1 ∧
    (ensureLoaded envFail sFresh).res =
      .error ("dlopen failed: " ++ envFail.dlerrMsg) ∧
    (ensureLoaded envFail (ensureLoaded envFail sFresh).state).eff.dlopenCalls = 1 :=
  ⟨rfl, rfl, rfl⟩

/-- Claim C2 (amended): once a lazy load attempt has completed successfully the
guard is set: every later ensureLoaded is a no-op with no dlopen call, also
after an unload (so only an explicit loadNow can reload); whereas after a
failed attempt the guard is still unset, the state unchanged, and the next
ensureLoaded re-invokes the platform load (one dlopen call). -/
theorem ensureLoaded_guard_semantics (env env2 : Env) (s : LibState) :
    ((ensureLoaded env s).res = .ok () →
      ensureLoaded env2 (ensureLoaded env s).state =
        ⟨(ensureLoaded env s).state, Eff.zero, .ok ()⟩ ∧
      ensureLoaded env2 (unload (ensureLoaded env s).state).1 =
        ⟨(unload (ensureLoaded env s).state).1, Eff.zero, .ok ()⟩ ∧
      isLoaded (ensureLoaded env2 (unload (ensureLoaded env s).state).1).state = false) ∧
    (∀ e, (ensureLoaded env s).res = .error e →
      (ensureLoaded env s).state = s ∧ s.onceDone = false ∧
      (ensureLoaded env2 s).eff.dlopenCalls = 1) := by
  constructor
  · intro h
    have h1 : (ensureLoaded env s).state.onceDone = true := ensureLoaded_ok_once env s h
    have h2 : (unload (ensureLoaded env s).state).1.onceDone = true := by
      rw [unload_onceDone]; exact h1
    refine ⟨ensureLoaded_of_onceDone env2 _ h1, ensureLoaded_of_onceDone env2 _ h2, ?_⟩
    rw [ensureLoaded_of_onceDone env2 _ h2]
    simp [isLoaded_false_iff, unload_handle]
  · intro e h
    obtain ⟨ha, hb, hc⟩ := ensureLoaded_error_state env s e h
    exact ⟨ha, hb, ensureLoaded_fresh_dlopen env2 s hb hc⟩

/-- Witness for the amended claim C2 at concrete inputs: a successful first
load makes the next ensureLoaded a pure no-op, and a failed first load leaves
the state unchanged with the retry performing one dlopen call. -/
theorem ensureLoaded_guard_semantics_w :
    (ensureLoaded envOk (ensureLoaded envOk sFresh).state =
      ⟨(ensureLoaded envOk sFresh).state, Eff.zero, .ok ()⟩) ∧
    (ensureLoaded envFail sFresh).state = sFresh ∧
    (ensureLoaded envOk sFresh).eff.dlopenCalls = 1 := by
  refine ⟨((ensureLoaded_guard_semantics envOk envOk sFresh).1 rfl).1, ?_, ?_⟩
  · exact ((ensureLoaded_guard_semantics envFail envOk sFresh).2
      ("dlopen failed: " ++ envFail.dlerrMsg) rfl).1
  · exact ((ensureLoaded_guard_semantics envFail envOk sFresh).2
      ("dlopen failed: " ++ envFail.dlerrMsg) rfl).2.2

/-- Claim C3 is false as stated: the mode SharedLibraryPosix.nativeLoad passes
to dlopen does not contain the RTLD_NOW bit, so immediate symbol resolution is
not requested. -/
theorem dlopenMode_not_immediate : dlopenMode &&& RTLD_NOW = 0 := by
  decide

/-- Claim C3 (amended): nativeLoad makes its dlopen call with mode
RTLD_LAZY OR RTLD_LOCAL — lazy symbol resolution and process-local
visibility: the behaviour of nativeLoad depends only on the value of dlopen at
that mode, the mode contains the RTLD_LAZY bit, and has neither the RTLD_NOW
nor the RTLD_GLOBAL bit. -/
theorem nativeLoad_lazy_local (env env2 : Env) (s : LibState)
    (hdl : ∀ p, env.dlopen p (RTLD_LAZY ||| RTLD_LOCAL) =
                env2.dlopen p (RTLD_LAZY ||| RTLD_LOCAL))
    (hmsg : env.dlerrMsg = env2.dlerrMsg) :
    nativeLoad env s = nativeLoad env2 s ∧
    dlopenMode = RTLD_LAZY ||| RTLD_LOCAL ∧
    dlopenMode &&& RTLD_LAZY = RTLD_LAZY ∧
    dlopenMode &&& RTLD_GLOBAL = 0 := by
  refine ⟨?_, rfl, by decide, by decide⟩
  unfold nativeLoad dlopenMode
  rw [hdl s.libPath, hmsg]

/-- Witness for the amended claim C3 at a concrete environment and state. -/
theorem nativeLoad_lazy_local_w :
    nativeLoad envOk sFresh = nativeLoad envOk sFresh ∧
    dlopenMode = RTLD_LAZY ||| RTLD_LOCAL ∧
    dlopenMode &&& RTLD_LAZY = RTLD_LAZY ∧
    dlopenMode &&& RTLD_GLOBAL = 0 :=
  nativeLoad_lazy_local envOk envOk sFresh (fun _ => rfl) rfl

/-- Claim C4: loadNow is atomic with respect to the loaded state — on an
already loaded handle it is a no-op; if it returns normally the handle is
loaded (non-null); and if it throws, the handle state is unchanged and was not
loaded, so isLoaded reports false after the failure. -/
theorem loadNow_atomic (env : Env) (s : LibState) :
    (isLoaded s = true → loadNow env s = ⟨s, Eff.zero, .ok ()⟩) ∧
    ((loadNow env s).res = .ok () → isLoaded (loadNow env s).state = true) ∧
    (∀ e, (loadNow env s).res = .error e →
      (loadNow env s).state = s ∧ isLoaded s = false) :=
  ⟨loadNow_of_isLoaded env s, loadNow_ok_loaded env s, loadNow_error_state env s⟩

/-- Witness for claim C4 at concrete inputs: the loaded no-op case, the
successful fresh load case, and the failing load case. -/
theorem loadNow_atomic_w :
    loadNow envOk sLoadedOnce = ⟨sLoadedOnce, Eff.zero, .ok ()⟩ ∧
    isLoaded (loadNow envOk sFresh).state = true ∧
    ((loadNow envFail sFresh).state = sFresh ∧ isLoaded sFresh = false) :=
  ⟨(loadNow_atomic envOk sLoadedOnce).1 rfl,
   (loadNow_atomic envOk sFresh).2.1 rfl,
   (loadNow_atomic envFail sFresh).2.2 ("dlopen failed: " ++ envFail.dlerrMsg) rfl⟩

/-- Claim C8: unload is idempotent — when loaded it releases the native
resource (one dlclose) and nulls the handle; when not loaded it is a no-op
with no dlclose; afterwards isLoaded reports false; and a second consecutive
unload is exactly a no-op, so unload composed with unload equals unload on the
handle state. -/
theorem unload_idempotent (s : LibState) :
    (isLoaded s = true → (unload s).1.handle = 0 ∧ (unload s).2 = ⟨0, 0, 1⟩) ∧
    (isLoaded s = false → unload s = (s, Eff.zero)) ∧
    isLoaded (unload s).1 = false ∧
    unload (unload s).1 = ((unload s).1, Eff.zero) := by
  refine ⟨?_, unload_noop s, ?_, ?_⟩
  · intro h
    have h0 : s.handle ≠ 0 := (isLoaded_iff s).mp h
    simp [unload, nativeUnload, h, h0]
  · simp [isLoaded_false_iff, unload_handle]
  · exact unload_noop _ (by simp [isLoaded_false_iff, unload_handle])

/-- Witness for claim C8 at concrete states: a loaded handle (handle 7) and an
unloaded one. -/
theorem unload_idempotent_w :
    ((unload sLoadedOnce).1.handle = 0 ∧ (unload sLoadedOnce).2 = ⟨0, 0, 1⟩) ∧
    unload sFresh = (sFresh, Eff.zero) :=
  ⟨(unload_idempotent sLoadedOnce).1 rfl,
   (unload_idempotent sFresh).2.1 rfl⟩

theorem rawGetSymbol_snd (env : Env) (s : LibState) (name : String)
    (hld : s.handle ≠ 0) :
    (rawGetSymbol env s name).2 = ⟨0, 1, 0⟩ := by
  unfold rawGetSymbol
  simp only [hld, if_neg hld]
  cases env.dlsym s.handle name <;> rfl

theorem get_of_onceDone (env : Env) (s : LibState) (name : String)
    (hod : s.onceDone = true) :
    get env s name =
      if resolveAddr env s name = 0 then
        ⟨s, Eff.zero.add (rawGetSymbol env s name).2,
         .error (throwLastErrorMsg "GetProcAddress" (some name))⟩
      else
        ⟨s, Eff.zero.add (rawGetSymbol env s name).2, .ok (resolveAddr env s name)⟩ := by
  unfold get
  rw [ensureLoaded_of_onceDone env s hod]
  rfl

/-- Claim C6: for a handle whose one-time load has completed, get on a symbol
that resolves to an address returns exactly that non-null pointer, and get on
a name whose resolution yields no address throws an error whose message
contains both the failing operation (GetProcAddress) and the requested symbol
name. -/
theorem get_resolution_report (env : Env) (s : LibState) (name : String)
    (hod : s.onceDone = true) :
    (resolveAddr env s name ≠ 0 →
      (get env s name).res = .ok (resolveAddr env s name) ∧
      (get env s name).state = s) ∧
    (resolveAddr env s name = 0 →
      (get env s name).res =
        .error ("GetProcAddress" ++ " failed" ++ " â€“ " ++ name) ∧
      (get env s name).state = s) := by
  rw [get_of_onceDone env s name hod]
  constructor
  · intro hne
    simp [hne]
  · intro h0
    simp [h0, throwLastErrorMsg]

/-- Witness for claim C6 at a concrete loaded handle: the symbol good resolves
to 42 and is returned; the symbol bad does not resolve and the thrown message
names GetProcAddress and bad. -/
theorem get_resolution_report_w :
    ((get envOk sLoadedOnce "good").res = .ok (resolveAddr envOk sLoadedOnce "good") ∧
     (get envOk sLoadedOnce "good").state = sLoadedOnce) ∧
    ((get envOk sLoadedOnce "bad").res =
       .error ("GetProcAddress" ++ " failed" ++ " â€“ " ++ "bad") ∧
     (get envOk sLoadedOnce "bad").state = sLoadedOnce) :=
  ⟨(get_resolution_report envOk sLoadedOnce "good" rfl).1 (by decide),
   (get_resolution_report envOk sLoadedOnce "bad" rfl).2 (by decide)⟩

/-- Claim C7: a symbol lookup while the library is not loaded is safe —
rawGetSymbol on a null native handle returns nullptr with no dlsym call at
all, and get on an unloaded handle that cannot be (re)loaded — either because
the one-time guard is already spent or because dlopen fails on its path —
ends in a thrown, reported error rather than a platform lookup on a bad
handle. -/
theorem unloaded_lookup_safe (env : Env) (s : LibState) (name : String) :
    (s.handle = 0 → rawGetSymbol env s name = (0, Eff.zero)) ∧
    (s.handle = 0 → s.onceDone = true → ∃ e, (get env s name).res = .error e) ∧
    (s.handle = 0 → env.dlopen s.libPath dlopenMode = none →
      ∃ e, (get env s name).res = .error e) := by
  refine ⟨?_, ?_, ?_⟩
  · intro h0
    simp [rawGetSymbol, h0]
  · intro h0 hod
    rw [get_of_onceDone env s name hod]
    have hra : resolveAddr env s name = 0 := by
      simp [resolveAddr, rawGetSymbol, h0]
    simp [hra]
  · intro h0 hdl
    by_cases hod : s.onceDone = true
    · rw [get_of_onceDone env s name hod]
      have hra : resolveAddr env s name = 0 := by
        simp [resolveAddr, rawGetSymbol, h0]
      simp [hra]
    · have hb : isLoaded s = false := (isLoaded_false_iff s).mpr h0
      have hod2 : s.onceDone = false := by
        cases hx : s.onceDone
        · rfl
        · exact absurd hx hod
      refine ⟨"dlopen failed: " ++ env.dlerrMsg, ?_⟩
      unfold get ensureLoaded loadNow nativeLoad
      simp [hod2, hb, hdl]

/-- Witness for claim C7 at concrete states: a spent unloaded handle and a
fresh handle whose path no linker can open. -/
theorem unloaded_lookup_safe_w :
    rawGetSymbol envOk sSpent "good" = (0, Eff.zero) ∧
    (∃ e, (get envOk sSpent "good").res = .error e) ∧
    (∃ e, (get envFail sFresh "good").res = .error e) :=
  ⟨(unloaded_lookup_safe envOk sSpent "good").1 rfl,
   (unloaded_lookup_safe envOk sSpent "good").2.1 rfl rfl,
   (unloaded_lookup_safe envFail sFresh "good").2.2 rfl rfl⟩

theorem setDelay_isLoaded (s : LibState) (b : Bool) :
    isLoaded (setDelay s b) = isLoaded s := rfl

theorem setDelay_handle (s : LibState) (b : Bool) :
    (setDelay s b).handle = s.handle := rfl

theorem setDelay_nativeLoad (env : Env) (s : LibState) (b : Bool) :
    nativeLoad env (setDelay s b) =
      ⟨setDelay (nativeLoad env s).state b, (nativeLoad env s).eff,
       (nativeLoad env s).res⟩ := by
  unfold nativeLoad setDelay
  cases hdl : env.dlopen s.libPath dlopenMode <;> simp [hdl]

theorem setDelay_loadNow (env : Env) (s : LibState) (b : Bool) :
    loadNow env (setDelay s b) =
      ⟨setDelay (loadNow env s).state b, (loadNow env s).eff,
       (loadNow env s).res⟩ := by
  have hnl := setDelay_nativeLoad env s b
  unfold loadNow
  cases hb : isLoaded s with
  | true => simp [setDelay_isLoaded, hb]
  | false =>
    rcases hn : nativeLoad env s with ⟨s1, e1, r⟩
    rw [hn] at hnl
    simp only [setDelay_isLoaded, hb, Bool.false_eq_true, if_false, hnl, hn]
    cases r with
    | error e => simp
    | ok u =>
      cases hld : isLoaded s1 with
      | true => simp [setDelay_isLoaded, hld]
      | false => simp [setDelay_isLoaded, hld]

theorem setDelay_ensureLoaded (env : Env) (s : LibState) (b : Bool) :
    ensureLoaded env (setDelay s b) =
      ⟨setDelay (ensureLoaded env s).state b, (ensureLoaded env s).eff,
       (ensureLoaded env s).res⟩ := by
  have hln := setDelay_loadNow env s b
  unfold ensureLoaded
  cases hod : s.onceDone with
  | true => simp [setDelay, hod]
  | false =>
    rcases hl : loadNow env s with ⟨s1, e1, r⟩
    rw [hl] at hln
    have hsdo : (setDelay s b).onceDone = s.onceDone := rfl
    simp only [hsdo, hod, Bool.false_eq_true, if_false, hln, hl]
    cases r with
    | error e => simp
    | ok u => simp [setDelay]

theorem setDelay_unload (s : LibState) (b : Bool) :
    unload (setDelay s b) = (setDelay (unload s).1 b, (unload s).2) := by
  unfold unload nativeUnload
  cases hb : isLoaded s with
  | true =>
    have h0 : s.handle ≠ 0 := (isLoaded_iff s).mp hb
    simp [isLoaded, setDelay, h0]
  | false =>
    have h0 : s.handle = 0 := (isLoaded_false_iff s).mp hb
    simp [isLoaded, setDelay, h0]

theorem setDelay_rawGetSymbol (env : Env) (s : LibState) (b : Bool) (name : String) :
    rawGetSymbol env (setDelay s b) name = rawGetSymbol env s name := by
  unfold rawGetSymbol setDelay
  cases hdl : env.dlsym s.handle name <;> simp [hdl]

theorem setDelay_get (env : Env) (s : LibState) (b : Bool) (name : String) :
    get env (setDelay s b) name =
      ⟨setDelay (get env s name).state b, (get env s name).eff,
       (get env s name).res⟩ := by
  have hel := setDelay_ensureLoaded env s b
  unfold get
  rcases he : ensureLoaded env s with ⟨s1, e1, r⟩
  rw [he] at hel
  simp only [hel, he]
  cases r with
  | error e => simp
  | ok u =>
    simp only [setDelay_rawGetSymbol]
    by_cases hz : (rawGetSymbol env s1 name).1 = 0
    · simp [hz]
    · simp [hz]

theorem setDelay_batchLoad_one (env : Env) (s : LibState) (σ : Slots) (b : Bool)
    (bd : FuncBinding) :
    batchLoad_one env (setDelay s b) σ bd =
      ⟨setDelay (batchLoad_one env s σ bd).state b, (batchLoad_one env s σ bd).slots,
       (batchLoad_one env s σ bd).eff, (batchLoad_one env s σ bd).err⟩ := by
  have hg := setDelay_get env s b bd.name
  unfold batchLoad_one
  rcases hgv : get env s bd.name with ⟨s1, e1, r⟩
  rw [hgv] at hg
  simp only [hg, hgv]
  cases r with
  | error e => simp
  | ok p => simp

theorem setDelay_batchLoad (env : Env) (bs : List FuncBinding) :
    ∀ (s : LibState) (σ : Slots) (b : Bool),
      batchLoad env (setDelay s b) σ bs =
        ⟨setDelay (batchLoad env s σ bs).state b, (batchLoad env s σ bs).slots,
         (batchLoad env s σ bs).eff, (batchLoad env s σ bs).err⟩ := by
  induction bs with
  | nil => intro s σ b; rfl
  | cons bd tl ih =>
    intro s σ b
    have h1 := setDelay_batchLoad_one env s σ b bd
    unfold batchLoad
    rcases hb1 : batchLoad_one env s σ bd with ⟨s1, σ1, e1, err⟩
    rw [hb1] at h1
    simp only [h1, hb1]
    cases err with
    | some msg => simp
    | none => simp [ih s1 σ1 b]

/-- Claim C10: the stored delayLoad flag is never read by any operation —
overwriting it changes no observable result of any public operation
(isLoaded, nativeHandle, loadNow, ensureLoaded, unload, rawGetSymbol, get,
batchLoad): every return value, thrown error, platform-call trace and the
rest of the state are identical, the flag merely being carried along. -/
theorem delayLoad_no_influence (env : Env) (s : LibState) (b : Bool)
    (name : String) (σ : Slots) (bs : List FuncBinding) :
    isLoaded (setDelay s b) = isLoaded s ∧
    (setDelay s b).handle = s.handle ∧
    loadNow env (setDelay s b) =
      ⟨setDelay (loadNow env s).state b, (loadNow env s).eff, (loadNow env s).res⟩ ∧
    ensureLoaded env (setDelay s b) =
      ⟨setDelay (ensureLoaded env s).state b, (ensureLoaded env s).eff,
       (ensureLoaded env s).res⟩ ∧
    unload (setDelay s b) = (setDelay (unload s).1 b, (unload s).2) ∧
    rawGetSymbol env (setDelay s b) name = rawGetSymbol env s name ∧
    get env (setDelay s b) name =
      ⟨setDelay (get env s name).state b, (get env s name).eff,
       (get env s name).res⟩ ∧
    batchLoad env (setDelay s b) σ bs =
      ⟨setDelay (batchLoad env s σ bs).state b, (batchLoad env s σ bs).slots,
       (batchLoad env s σ bs).eff, (batchLoad env s σ bs).err⟩ :=
  ⟨setDelay_isLoaded s b, setDelay_handle s b, setDelay_loadNow env s b,
   setDelay_ensureLoaded env s b, setDelay_unload s b,
   setDelay_rawGetSymbol env s b name, setDelay_get env s b name,
   setDelay_batchLoad env bs s σ b⟩

theorem batchLoad_one_loaded (env : Env) (s : LibState) (σ : Slots)
    (bd : FuncBinding) (hod : s.onceDone = true) (hld : s.handle ≠ 0) :
    batchLoad_one env s σ bd =
      if resolveAddr env s bd.name = 0 then
        ⟨s, σ, ⟨0, 1, 0⟩, some (throwLastErrorMsg "GetProcAddress" (some bd.name))⟩
      else
        ⟨s, Slots.write σ bd.ptr (resolveAddr env s bd.name), ⟨0, 1, 0⟩, none⟩ := by
  unfold batchLoad_one
  rw [get_of_onceDone env s bd.name hod]
  have hsnd : (rawGetSymbol env s bd.name).2 = ⟨0, 1, 0⟩ :=
    rawGetSymbol_snd env s bd.name hld
  by_cases hz : resolveAddr env s bd.name = 0
  · simp [hz, hsnd, Eff.zero_add]
  · simp [hz, hsnd, Eff.zero_add]

theorem batchLoad_one_slots (env : Env) (s : LibState) (σ : Slots)
    (bd : FuncBinding) (x : Nat) (hx : x ≠ bd.ptr) :
    (batchLoad_one env s σ bd).slots x = σ x := by
  unfold batchLoad_one
  rcases hg : get env s bd.name with ⟨s1, e1, r⟩
  cases r with
  | error e => simp
  | ok p => simp [Slots.write, hx]

theorem batchLoad_untouched (env : Env) (bs : List FuncBinding) :
    ∀ (s : LibState) (σ : Slots) (x : Nat),
      x ∉ bs.map FuncBinding.ptr → (batchLoad env s σ bs).slots x = σ x := by
  induction bs with
  | nil => intro s σ x _; rfl
  | cons bd tl ih =>
    intro s σ x hx
    simp only [List.map_cons, List.mem_cons, not_or] at hx
    unfold batchLoad
    rcases hb1 : batchLoad_one env s σ bd with ⟨s1, σ1, e1, err⟩
    have hs1 : σ1 x = σ x := by
      have h := batchLoad_one_slots env s σ bd x hx.1
      rw [hb1] at h
      exact h
    cases err with
    | some msg => simpa using hs1
    | none =>
      calc (batchLoad env s1 σ1 tl).slots x = σ1 x := ih s1 σ1 x hx.2
        _ = σ x := hs1

/-- Claim C5: batchLoad resolves its descriptors strictly in the order given
and is fail-fast — on a loaded handle, if every descriptor of the first
segment resolves and the next descriptor does not, the call fails with the
error of that descriptor, the earlier destination slots have been written with
their resolved addresses, the state is untouched, exactly one dlsym call was
made per attempted descriptor, and the slots of the failing descriptor and of
every later descriptor are unmodified. -/
theorem batchLoad_fail_fast (env : Env) (s : LibState)
    (pre suf : List FuncBinding) (bd : FuncBinding) (σ : Slots)
    (hod : s.onceDone = true) (hld : s.handle ≠ 0)
    (hpre : ∀ x ∈ pre, resolveAddr env s x.name ≠ 0)
    (hfail : resolveAddr env s bd.name = 0)
    (hnd : ((pre ++ bd :: suf).map FuncBinding.ptr).Nodup) :
    (batchLoad env s σ (pre ++ bd :: suf)).err =
      some (throwLastErrorMsg "GetProcAddress" (some bd.name)) ∧
    (batchLoad env s σ (pre ++ bd :: suf)).state = s ∧
    (batchLoad env s σ (pre ++ bd :: suf)).eff = ⟨0, pre.length + 1, 0⟩ ∧
    (∀ x ∈ pre, (batchLoad env s σ (pre ++ bd :: suf)).slots x.ptr =
      resolveAddr env s x.name) ∧
    (∀ x ∈ suf, (batchLoad env s σ (pre ++ bd :: suf)).slots x.ptr = σ x.ptr) ∧
    (batchLoad env s σ (pre ++ bd :: suf)).slots bd.ptr = σ bd.ptr := by
  revert σ hpre hnd
  induction pre with
  | nil =>
    intro σ hpre hnd
    have h1 := batchLoad_one_loaded env s σ bd hod hld
    rw [if_pos hfail] at h1
    simp only [List.nil_append]
    unfold batchLoad
    rw [h1]
    simp
  | cons a tl ih =>
    intro σ hpre hnd
    have ha : resolveAddr env s a.name ≠ 0 := hpre a (List.mem_cons_self a tl)
    have h1 := batchLoad_one_loaded env s σ a hod hld
    rw [if_neg ha] at h1
    simp only [List.map_cons, List.cons_append, List.nodup_cons] at hnd
    obtain ⟨hout, hnd2⟩ := hnd
    have hih := ih (Slots.write σ a.ptr (resolveAddr env s a.name))
      (fun x hx => hpre x (List.mem_cons_of_mem a hx)) hnd2
    obtain ⟨ih1, ih2, ih3, ih4, ih5, ih6⟩ := hih
    have hgoal : batchLoad env s σ (a :: (tl ++ bd :: suf)) =
        ⟨(batchLoad env s (Slots.write σ a.ptr (resolveAddr env s a.name)) (tl ++ bd :: suf)).state,
         (batchLoad env s (Slots.write σ a.ptr (resolveAddr env s a.name)) (tl ++ bd :: suf)).slots,
         Eff.add ⟨0, 1, 0⟩ (batchLoad env s (Slots.write σ a.ptr (resolveAddr env s a.name)) (tl ++ bd :: suf)).eff,
         (batchLoad env s (Slots.write σ a.ptr (resolveAddr env s a.name)) (tl ++ bd :: suf)).err⟩ := by
      conv_lhs => rw [batchLoad]
      rw [h1]
    rw [List.cons_append, hgoal]
    refine ⟨ih1, ih2, ?_, ?_, ?_, ?_⟩
    · rw [ih3]
      simp [Eff.add]
      omega
    · intro x hx
      rcases List.mem_cons.mp hx with hxa | hxtl
      · subst hxa
        have hnot : x.ptr ∉ (tl ++ bd :: suf).map FuncBinding.ptr := hout
        rw [batchLoad_untouched env (tl ++ bd :: suf) s _ x.ptr hnot]
        simp [Slots.write]
      · exact ih4 x hxtl
    · intro x hx
      have hxp : x.ptr ∈ (tl ++ bd :: suf).map FuncBinding.ptr := by
        refine List.mem_map_of_mem FuncBinding.ptr ?_
        simp [hx]
      have hne : x.ptr ≠ a.ptr := by
        intro he
        exact hout (he ▸ hxp)
      rw [ih5 x hx]
      simp [Slots.write, hne]
    · have hxp : bd.ptr ∈ (tl ++ bd :: suf).map FuncBinding.ptr := by
        refine List.mem_map_of_mem FuncBinding.ptr ?_
        simp
      have hne : bd.ptr ≠ a.ptr := by
        intro he
        exact hout (he ▸ hxp)
      rw [ih6]
      simp [Slots.write, hne]

/-- Witness for claim C5 at a concrete scenario: descriptors f, g, h into
slots 1, 2, 3 of an all-null store; f and h resolve, g does not — the call
fails with the error naming g, slot 1 holds the address of f, and the slots of
g and h are unmodified. -/
theorem batchLoad_fail_fast_w :
    (batchLoad envBatch sLoadedOnce slots0 ([bF] ++ bG :: [bH])).err =
      some (throwLastErrorMsg "GetProcAddress" (some bG.name)) ∧
    (batchLoad envBatch sLoadedOnce slots0 ([bF] ++ bG :: [bH])).state = sLoadedOnce ∧
    (batchLoad envBatch sLoadedOnce slots0 ([bF] ++ bG :: [bH])).slots bF.ptr =
      resolveAddr envBatch sLoadedOnce bF.name ∧
    (batchLoad envBatch sLoadedOnce slots0 ([bF] ++ bG :: [bH])).slots bH.ptr =
      slots0 bH.ptr ∧
    (batchLoad envBatch sLoadedOnce slots0 ([bF] ++ bG :: [bH])).slots bG.ptr =
      slots0 bG.ptr := by
  have h := batchLoad_fail_fast envBatch sLoadedOnce [bF] [bH] bG slots0
    rfl (by decide) (by decide) (by decide) (by decide)
  exact ⟨h.1, h.2.1, h.2.2.2.1 bF (by simp), h.2.2.2.2.1 bH (by simp), h.2.2.2.2.2⟩

end SharedLibrary
